import Mathlib

/-!
Shallow embedding of `src/chatbot.py` (JoSi chatbot).

The pure response-handling helpers (`call_gemini_api`, `gemini_check_company`,
`gemini_generate_questions`) are translated directly.  The network, the JSON
parser of the standard library and the profanity word list are external
collaborators; they enter the model as explicit oracles:

* an HTTP call outcome is a `CallResult` (a transport exception carrying the
  Python exception message, or a response with a status code, a raw body, and
  the outcome of the chained subscript expression
  `resp.json()["candidates"][0]["content"]["parts"][0]["text"]`, which either
  yields the text or raises with some message);
* `json.loads` is an arbitrary function `String → Option Json` over a JSON
  value tree (`none` models a raised `JSONDecodeError`);
* the profanity predicate and the per-prompt remote behaviour live in an
  environment record `Env`.

Python strings are modelled as Lean `String`; machine-level details
(byte encodings) do not matter to any claim.
-/

namespace Chatbot

/-- Python-style whitespace test used by `str.strip`. -/
def isPythonSpace (c : Char) : Bool :=
  c = ' ' || c = '\t' || c = '\n' || c = '\r' || c = Char.ofNat 11 || c = Char.ofNat 12

/-- Characters of `str.strip`: drop whitespace from both ends. -/
def pyStripChars (l : List Char) : List Char :=
  ((l.dropWhile isPythonSpace).reverse.dropWhile isPythonSpace).reverse

/-- Python `str.strip()`. -/
def pyStrip (s : String) : String := String.mk (pyStripChars s.data)

/-- Python `str.lower()` (ASCII case mapping, which is all the code compares). -/
def pyLower (s : String) : String := String.mk (s.data.map Char.toLower)

/-- Outcome of the subscript chain extracting the first candidate's first text
part from the decoded response body: either the text, or a raised exception
with message `msg` (KeyError/IndexError/JSONDecodeError from `resp.json()`). -/
inductive ExtractOutcome where
  | text (s : String)
  | raises (msg : String)
deriving DecidableEq

/-- Outcome of one `requests.post` call: a transport exception with message
`msg`, or a response with its status code, raw body text, and the extraction
outcome for its JSON body. -/
inductive CallResult where
  | exn (msg : String)
  | resp (status : Nat) (body : String) (extract : ExtractOutcome)
deriving DecidableEq

/-- Embedding of `call_gemini_api` (src/chatbot.py:80-102): on status 200
return the extracted candidate text, on any other status return the
`"Error <status>: <body>"` sentinel, and on any exception raised inside the
`try` block (transport or extraction) return `"Error: <message>"`. -/
def call_gemini_api : CallResult → String
  | .exn msg => "Error: " ++ msg
  | .resp status body extract =>
    if status = 200 then
      match extract with
      | .text s => s
      | .raises msg => "Error: " ++ msg
    else
      "Error " ++ toString status ++ ": " ++ body

/-- JSON value tree, the codomain of the modelled `json.loads`. -/
inductive Json where
  | null
  | bool (b : Bool)
  | num (n : Int)
  | str (s : String)
  | arr (items : List Json)
  | obj (fields : List (String × Json))

/-- Python `len` applied to a decoded JSON value: defined for strings, arrays
and objects, a raised `TypeError` (`none`) otherwise. -/
def pyLen : Json → Option Nat
  | .str s => some s.length
  | .arr items => some items.length
  | .obj fields => some fields.length
  | _ => none

/-- Python dict subscript `data[k]`: `none` models the raised KeyError /
TypeError when the key is absent or the value is not a dict. -/
def getKey (j : Json) (k : String) : Option Json :=
  match j with
  | .obj fields => fields.lookup k
  | _ => none

/-- The character `{`. -/
def lbrace : Char := Char.ofNat 123

/-- The character `}`. -/
def rbrace : Char := Char.ofNat 125

/-- Index of the first occurrence of `c` (Python `str.find`, as an Option). -/
def firstIdx (c : Char) : List Char → Option Nat
  | [] => none
  | x :: xs => if x = c then some 0 else (firstIdx c xs).map (fun i => i + 1)

/-- Index of the last occurrence of `c` (Python `str.rfind`, as an Option). -/
def lastIdx (c : Char) (l : List Char) : Option Nat :=
  match firstIdx c l.reverse with
  | none => none
  | some i => some (l.length - 1 - i)

/-- The naive JSON capture of `gemini_generate_questions`
(src/chatbot.py:157-163): the substring from the first `{` to the last `}`
(stripped), or `""` when either brace is missing or the last `}` does not come
strictly after the first `{`. -/
def extract_json_span (raw : String) : String :=
  match firstIdx lbrace raw.data, lastIdx rbrace raw.data with
  | some s, some e =>
    if s < e then pyStrip (String.mk ((raw.data.drop s).take (e + 1 - s))) else ""
  | _, _ => ""

/-- The five hardcoded fallback technical questions (src/chatbot.py:176-182). -/
def fallback_technical : List String :=
  ["Explain what OOP is.",
   "What is a database index?",
   "How does a binary search work?",
   "What is an API, and how do you use it?",
   "Describe how you would optimize a slow SQL query."]

/-- The five hardcoded fallback behavioral questions (src/chatbot.py:183-189). -/
def fallback_behavioral : List String :=
  ["Tell me about a challenge you overcame in a team.",
   "How do you handle tight deadlines?",
   "Describe a time you received critical feedback.",
   "What does work-life balance mean to you?",
   "What motivates you to succeed?"]

/-- The fallback pair as returned by the `except` branch (two Python lists of
strings). -/
def fallbackPair : Json × Json :=
  (.arr (fallback_technical.map .str), .arr (fallback_behavioral.map .str))

/-- The `try` block of `gemini_generate_questions` (src/chatbot.py:166-172):
decode `json_str`, subscript the two keys, and require both values to have
Python length exactly 5; any raised exception on that path yields `none`. -/
def parse_questions (loads : String → Option Json) (json_str : String) :
    Option (Json × Json) :=
  match loads json_str with
  | none => none
  | some data =>
    match getKey data "technical_questions" with
    | none => none
    | some tech =>
      match getKey data "behavioral_questions" with
      | none => none
      | some beh =>
        match pyLen tech, pyLen beh with
        | some lt, some lb =>
          if lt ≠ 5 ∨ lb ≠ 5 then none else some (tech, beh)
        | _, _ => none

/-- Embedding of `gemini_generate_questions` (src/chatbot.py:135-190) after
the remote call: given the modelled `json.loads` and the raw response text,
extract the brace span, attempt the strict parse, and fall back to the
hardcoded question pair on any failure. -/
def gemini_generate_questions (loads : String → Option Json)
    (raw_response : String) : Json × Json :=
  match parse_questions loads (extract_json_span raw_response) with
  | some (t, b) => (t, b)
  | none => fallbackPair

/-- The strict company-check prompt of `gemini_check_company`
(src/chatbot.py:117-125), with the f-string interpolation of the company
name rendered as concatenation. -/
def company_check_prompt (company_name : String) : String :=
  "\nCheck if the company name \"" ++ company_name ++
  "\" is recognized in the context\nof campus placements at St. Xavier\x27s College, Mumbai.\n\nIf yes, respond EXACTLY with \"VALID\".\nOtherwise respond EXACTLY with \"INVALID\".\n\nIMPORTANT: No extra text or explanation.\n"

/-- The question-generation prompt of `gemini_generate_questions`
(src/chatbot.py:145-153). -/
def question_gen_prompt (role : String) : String :=
  "\nGenerate exactly 5 technical interview questions and 5 behavioral interview questions\nfor the role: \"" ++
  role ++
  "\" at St. Xavier\x27s College campus placements.\n- If the role is IT/software related, include at least 2 coding or programming questions.\nReturn ONLY valid JSON, with keys:\n  \"technical_questions\": <array of 5 strings>,\n  \"behavioral_questions\": <array of 5 strings>.\nNo code fences, no extra commentary.\n"

/-- The `about` entry of `COLLEGE_INFO` (src/chatbot.py:19-24). -/
def college_about : String :=
  "St. Xavier\x27s College, Mumbai, is a leading institution offering a wide range of undergraduate and postgraduate courses in Arts, Science, Commerce, and Management. Known for its rich legacy and distinguished alumni, the college emphasizes holistic student development."

/-- The `courses` entry of `COLLEGE_INFO` joined with `", "` as in the
f-string of `SYSTEM_PROMPT` (src/chatbot.py:52). -/
def college_courses_joined : String :=
  "Bachelor of Arts (B.A.), Bachelor of Science (B.Sc.), Bachelor of Commerce (B.Com.), Bachelor of Management Studies (BMS), Bachelor of Mass Media (BMM), M.A. in Public Policy, M.Sc. in Biotechnology, PhD Programs in select disciplines"

/-- The fixed system instructions `SYSTEM_PROMPT` (src/chatbot.py:46-74) with
the `COLLEGE_INFO` f-string interpolations carried out. -/
def SYSTEM_PROMPT : String :=
  "\nYou are JoSi, the official placement and academic guide chatbot for St. Xavier\x27s College, Mumbai. \nUse the following knowledge to answer queries precisely:\n\n**College Data**:\nAbout: " ++
  college_about ++
  "\nAvailable Courses: " ++ college_courses_joined ++
  "\n\n**Placement Cell**:\nHead: Ms.Radhika Tendulkar\nEmail: radhika.tendulkar@xaviers.edu\nHighest Package Ever: 24 LPA\nLatest Info: The 2023 placement season saw record participation from 55 companies, with an average package of 8 LPA.\n\nYou can provide:\n - Placement guidance\n - Interview prep\n - Course suggestions\n - Info about the college’s history or academic programs\n\n**Important**:\n1. If a user’s text has profanity or offensive language, politely refuse to answer further.\n2. For the \"Placement Test,\" ask 5 technical + 5 behavioral questions one-by-one. \n   Collect each answer, then evaluate all at the end.\n3. Use short paragraphs and **Markdown** formatting (headings `###`, bullets, bold, etc.).\n4. Highest package is exactly 24 LPA, be precise if asked.\n\nNOTE: If you are returning data for a \"company check,\" respond EXACTLY with \"VALID\" or \"INVALID\" and nothing else.\n"

/-- One recorded conversation turn, an entry of
`self.conversation_history` (a dict with keys `sender` and `text`). -/
structure Turn where
  sender : String
  text : String
deriving DecidableEq

/-- The `test_data` dict of `TestManager` (src/chatbot.py:198-204).  The
question lists are modelled as lists of strings, the shape the generator
delivers on every run it performs (proved separately on the `Json` model). -/
structure TestData where
  company : String
  role : String
  technical_questions : List String
  behavioral_questions : List String
  user_answers : List String
deriving DecidableEq

/-- Test data of `TestManager.__init__`: empty company, role, lists. -/
def TestData.init : TestData :=
  { company := "", role := "", technical_questions := [],
    behavioral_questions := [], user_answers := [] }

/-- The `TestManager` object (src/chatbot.py:194-243). -/
structure TestManager where
  in_test : Bool
  question_index : Nat
  test_data : TestData
deriving DecidableEq

/-- Embedding of `TestManager.__init__` (src/chatbot.py:195-204). -/
def TestManager.init : TestManager :=
  { in_test := false, question_index := 0, test_data := TestData.init }

/-- The local `q` of `TestManager.next_question` (src/chatbot.py:224-232):
the question at `question_index`, taken from the technical list below its
length, then from the behavioral list below the combined length, else
`None`. -/
def TestManager.current_question (tm : TestManager) : Option String :=
  if tm.question_index < tm.test_data.technical_questions.length then
    tm.test_data.technical_questions.get? tm.question_index
  else if tm.question_index < tm.test_data.technical_questions.length +
      tm.test_data.behavioral_questions.length then
    tm.test_data.behavioral_questions.get?
      (tm.question_index - tm.test_data.technical_questions.length)
  else none

/-- Embedding of `TestManager.next_question` (src/chatbot.py:223-236): pick
the current question; then `if q:` — a Python truthiness test — so the index
advances only when the picked question is a non-empty string. -/
def TestManager.next_question (tm : TestManager) : Option String × TestManager :=
  match tm.current_question with
  | some s =>
    if s = "" then (some s, tm)
    else (some s, { tm with question_index := tm.question_index + 1 })
  | none => (none, tm)

/-- Embedding of `TestManager.store_answer` (src/chatbot.py:238-239). -/
def TestManager.store_answer (tm : TestManager) (answer : String) : TestManager :=
  { tm with test_data :=
      { tm.test_data with user_answers := tm.test_data.user_answers ++ [answer] } }

/-- Embedding of `TestManager.all_answers_collected` (src/chatbot.py:241-243). -/
def TestManager.all_answers_collected (tm : TestManager) : Bool :=
  decide (tm.test_data.technical_questions.length +
          tm.test_data.behavioral_questions.length ≤
          tm.test_data.user_answers.length)

/-- Python `str` of a list of strings, as interpolated into the evaluation
f-string (repr of each element in single quotes, joined by `", "` inside
brackets). -/
def pyReprStrList (l : List String) : String :=
  "[" ++ String.intercalate ", " (l.map (fun s => "\x27" ++ s ++ "\x27")) ++ "]"

/-- The evaluation prompt of `TestManager.evaluate_answers`
(src/chatbot.py:250-260), embedding company, role, both question lists and
all stored answers. -/
def evaluation_prompt (td : TestData) : String :=
  "\nEvaluate these interview answers for " ++ td.company ++ " (" ++ td.role ++
  "):\nTechnical Questions:\n" ++ pyReprStrList td.technical_questions ++
  "\nBehavioral Questions:\n" ++ pyReprStrList td.behavioral_questions ++
  "\nAnswers:\n" ++ pyReprStrList td.user_answers ++
  "\n\nGive detailed feedback for each answer and a final (0-100%) \x27placement probability\x27.\n"

/-- Environment of external collaborators: the profanity predicate of
`better_profanity`, the remote service as a map from prompt to call outcome,
and the question pipeline `gemini_generate_questions` delivered at the
sequencer's string-list level (its 5+5 shape is proved on the `Json` model). -/
structure Env where
  isProfane : String → Bool
  remote : String → CallResult
  genQuestions : String → List String × List String

/-- Embedding of `gemini_check_company` (src/chatbot.py:107-133): send the
strict check prompt and return true iff the stripped, lowered response equals
`"valid"`. -/
def gemini_check_company (env : Env) (company_name : String) : Bool :=
  let response := call_gemini_api (env.remote (company_check_prompt company_name))
  pyLower (pyStrip response) == "valid"

/-- Observable effects of one dispatched message: chat-pane renderings
(`add_message`, with its `is_error` flag) and remote calls in order. -/
inductive Event where
  | displayed (sender : String) (text : String) (isError : Bool)
  | apiCall (prompt : String)
deriving DecidableEq

/-- The rejection message of the company branch (src/chatbot.py:553-557). -/
def company_rejection_message : String :=
  "That company is **NOT recognized** for campus placements (or the model isn\x27t sure). Please try another company name."

/-- The message displayed by `exit_test` (src/chatbot.py:541). -/
def exit_test_message : String :=
  "Exited test mode. How else can I help you?"

/-- The fixed refusal of the overridden `send_message`
(src/chatbot.py:626). -/
def refusal_message : String :=
  "Sorry, I can\x27t respond to that language."

/-- The fixed refusal of `get_response` (src/chatbot.py:597). -/
def get_response_refusal : String :=
  "I\x27m sorry, but I cannot respond to that."

/-- Evaluation followed by `exit_test` as performed when the test completes
(src/chatbot.py:573-577 and, for exhausted questions, 583-587): one remote
call on the evaluation prompt, the raw result displayed, and the manager
replaced by a fresh `TestManager`. -/
def evaluate_and_exit (env : Env) (td : TestData) : TestManager × List Event :=
  let p := evaluation_prompt td
  (TestManager.init,
   [.apiCall p, .displayed "JoSi" (call_gemini_api (env.remote p)) false,
    .displayed "JoSi" exit_test_message false])

/-- Embedding of `EnhancedChatbotGUI.ask_next_question` (src/chatbot.py:581-589): advance
the manager; on `None` run the final evaluation and exit, otherwise display
the question labelled with the (post-increment) `question_index`. -/
def ask_next_question (env : Env) (tm : TestManager) : TestManager × List Event :=
  match tm.next_question with
  | (none, tm1) => evaluate_and_exit env tm1.test_data
  | (some q, tm1) =>
    (tm1,
     [.displayed "JoSi" ("**Q" ++ toString tm1.question_index ++ ":** " ++ q) false])

/-- Embedding of `EnhancedChatbotGUI.handle_test_flow` (src/chatbot.py:543-579): company
check while `company` is falsy, role entry plus question generation while
`role` is falsy, and answer collection otherwise, evaluating and exiting once
all answers are in.  The question-generation remote call made inside
`generate_test_questions` is recorded as an `apiCall` event on its prompt. -/
def handle_test_flow (env : Env) (tm : TestManager) (input : String) :
    TestManager × List Event :=
  if tm.test_data.company = "" then
    let checkEv : Event := .apiCall (company_check_prompt input)
    if gemini_check_company env input then
      ({ tm with test_data := { tm.test_data with company := input } },
       [checkEv,
        .displayed "JoSi"
          ("Great! Now enter the role you\x27re applying for at " ++ input ++ ":")
          false])
    else
      (tm, [checkEv, .displayed "JoSi" company_rejection_message false])
  else if tm.test_data.role = "" then
    let qs := env.genQuestions input
    let tm1 :=
      { tm with test_data :=
          { tm.test_data with
            role := input
            technical_questions := qs.1
            behavioral_questions := qs.2 } }
    let next := ask_next_question env tm1
    (next.1,
     [.apiCall (question_gen_prompt input),
      .displayed "JoSi" "Excellent! Let\x27s begin with the first question:" false] ++
     next.2)
  else
    let tm1 := tm.store_answer input
    if tm1.all_answers_collected then
      evaluate_and_exit env tm1.test_data
    else
      ask_next_question env tm1

/-- The last `n` elements, Python `l[-n:]`. -/
def pyLastN (n : Nat) (l : List Turn) : List Turn := l.drop (l.length - n)

/-- The single prompt composed by `get_response` (src/chatbot.py:599-604):
system instructions, the last five recorded turns rendered as
`"sender: text"` lines, and the new user turn. -/
def get_response_prompt (history : List Turn) (prompt : String) : String :=
  SYSTEM_PROMPT ++ "\n\n" ++
  String.intercalate "\n" ((pyLastN 5 history).map (fun m => m.sender ++ ": " ++ m.text)) ++
  "\nUser: " ++ prompt

/-- Embedding of `EnhancedChatbotGUI.get_response` (src/chatbot.py:591-608): refuse flagged
prompts without calling out, otherwise make one remote call on the composed
prompt and return its result unmodified. -/
def get_response (env : Env) (history : List Turn) (prompt : String) :
    String × List Event :=
  if env.isProfane prompt then (get_response_refusal, [])
  else
    let final_text := get_response_prompt history prompt
    (call_gemini_api (env.remote final_text), [.apiCall final_text])

/-- The interactive state owned by `EnhancedChatbotGUI`: the rolling
conversation history and the current test manager. -/
structure ChatState where
  conversation_history : List Turn
  test_manager : TestManager
deriving DecidableEq

/-- The state right after `EnhancedChatbotGUI.__init__`. -/
def init_state : ChatState :=
  { conversation_history := [], test_manager := TestManager.init }

/-- The overridden `EnhancedChatbotGUI.send_message` (src/chatbot.py:610-643)
together with the worker it spawns (`process_test_message` /
`process_normal_message`, src/chatbot.py:645-665), sequentialised: strip the
input and drop it if empty; display it; refuse flagged input before touching
the history; append the user turn; then either run the test flow (which never
touches the history) or run the normal chat, which appends the response as an
assistant turn unconditionally and renders it with the error flag iff it
starts with `"Error"`. -/
def send_message (env : Env) (st : ChatState) (raw : String) :
    ChatState × List Event :=
  let user_text := pyStrip raw
  if user_text = "" then (st, [])
  else
    let shown : List Event := [.displayed "You" user_text false]
    if env.isProfane user_text then
      (st, shown ++ [.displayed "JoSi" refusal_message true])
    else
      let hist1 := st.conversation_history ++ [{ sender := "user", text := user_text }]
      if st.test_manager.in_test then
        let r := handle_test_flow env st.test_manager user_text
        ({ conversation_history := hist1, test_manager := r.1 }, shown ++ r.2)
      else
        let r := get_response env hist1 user_text
        ({ conversation_history := hist1 ++ [{ sender := "JoSi", text := r.1 }],
           test_manager := st.test_manager },
         shown ++ r.2 ++ [.displayed "JoSi" r.1 (r.1.startsWith "Error")])

/-- A user-interface action: a submitted message, or one of the two test
buttons (each clickable only in the mode where the GUI enables it). -/
inductive Step where
  | user (raw : String)
  | startTest
  | exitTest

/-- State transition of one interface action: `send_message` for a submitted
message, `start_test` (src/chatbot.py:528-535) sets `in_test` on the current
manager, `exit_test` (src/chatbot.py:537-541) installs a fresh manager; the
buttons are no-ops when disabled. -/
def apply_step (env : Env) (st : ChatState) : Step → ChatState
  | .user raw => (send_message env st raw).1
  | .startTest =>
    if st.test_manager.in_test then st
    else { st with test_manager := { st.test_manager with in_test := true } }
  | .exitTest =>
    if st.test_manager.in_test then { st with test_manager := TestManager.init }
    else st

/-- States reachable from the freshly initialised GUI by interface actions. -/
inductive Reachable (env : Env) : ChatState → Prop where
  | init : Reachable env init_state
  | step : ∀ st s, Reachable env st → Reachable env (apply_step env st s)

/-- Feeding a list of inputs one by one through `handle_test_flow`,
accumulating the manager and the emitted events. -/
def run_answers (env : Env) (tm : TestManager) : List String → TestManager × List Event
  | [] => (tm, [])
  | a :: rest =>
    let r1 := handle_test_flow env tm a
    let r2 := run_answers env r1.1 rest
    (r2.1, r1.2 ++ r2.2)

/-- The chat-pane event asking the question with 0-based position `n` of the
concatenated question list: it is labelled `Q(n+1)`. -/
def question_event (qlist : List String) (n : Nat) : Event :=
  .displayed "JoSi" ("**Q" ++ toString (n + 1) ++ ":** " ++ ((qlist.get? n).getD "")) false

/-- The block of `n` consecutive question events starting at 0-based
position `start` of the concatenated question list. -/
def question_events (qlist : List String) (start : Nat) : Nat → List Event
  | 0 => []
  | n + 1 => question_event qlist start :: question_events qlist (start + 1) n

/-- The string `process_normal_message` receives back from `get_response` for
a non-flagged input `u`: the remote result on the prompt composed over the
history with the user turn already appended (the append happens in
`send_message` before the worker runs). -/
def normal_chat_response (env : Env) (st : ChatState) (u : String) : String :=
  call_gemini_api (env.remote
    (get_response_prompt (st.conversation_history ++ [{ sender := "user", text := u }]) u))

/-- Inductive invariant of the test session, strong enough to be preserved by
every interface action: the stored company passed the company check, a stored
role implies a stored company, the question lists of a started test are the
generator's output for the stored role, no answers precede the role, and at
most nine answers are ever pending. -/
def SessionInvFull (env : Env) (tm : TestManager) : Prop :=
  (tm.test_data.company ≠ "" →
    gemini_check_company env tm.test_data.company = true) ∧
  (tm.test_data.role ≠ "" → tm.test_data.company ≠ "") ∧
  (tm.test_data.role ≠ "" →
    tm.test_data.technical_questions = (env.genQuestions tm.test_data.role).1 ∧
    tm.test_data.behavioral_questions = (env.genQuestions tm.test_data.role).2) ∧
  (tm.test_data.role = "" → tm.test_data.user_answers = []) ∧
  tm.test_data.user_answers.length ≤ 9

/-- Stub environment: nothing is flagged, the remote answers every prompt
with HTTP 200 and candidate text `"VALID"`, and question generation yields
the fallback set. -/
def env_valid : Env :=
  { isProfane := fun _ => false,
    remote := fun _ => .resp 200 "ok" (.text "VALID"),
    genQuestions := fun _ => (fallback_technical, fallback_behavioral) }

/-- Stub environment: nothing is flagged and the remote answers every prompt
with HTTP 500 and body `"server error"`. -/
def env500 : Env :=
  { isProfane := fun _ => false,
    remote := fun _ => .resp 500 "server error" (.raises "boom"),
    genQuestions := fun _ => (fallback_technical, fallback_behavioral) }

/-- Stub environment whose content filter flags every input. -/
def env_flagged : Env :=
  { isProfane := fun _ => true,
    remote := fun _ => .resp 200 "ok" (.text "hi"),
    genQuestions := fun _ => (fallback_technical, fallback_behavioral) }

/-- Question lists whose second technical question is the empty string. -/
def empty_q_technical : List String := ["A", "", "C", "D", "E"]

/-- Five non-empty behavioral questions for the stalling counterexample. -/
def empty_q_behavioral : List String := ["F", "G", "H", "I", "J"]

/-- Stub environment generating `empty_q_technical`/`empty_q_behavioral`. -/
def env_empty_q : Env :=
  { isProfane := fun _ => false,
    remote := fun _ => .resp 200 "ok" (.text "VALID"),
    genQuestions := fun _ => (empty_q_technical, empty_q_behavioral) }

/-- A test manager mid-test: company and role accepted, the empty-string
question set installed, question 1 already asked, no answers yet. -/
def c1cex_tm : TestManager :=
  { in_test := true, question_index := 1,
    test_data := { company := "Acme"
                   role := "Developer"
                   technical_questions := empty_q_technical
                   behavioral_questions := empty_q_behavioral
                   user_answers := [] } }

/-- A test manager whose current technical question is the empty string. -/
def c10cex_tm : TestManager :=
  { in_test := true, question_index := 1,
    test_data := { company := "Acme"
                   role := "Developer"
                   technical_questions := empty_q_technical
                   behavioral_questions := empty_q_behavioral
                   user_answers := [] } }

/-- A test manager positioned at the first question of the fallback set. -/
def c10wit_tm : TestManager :=
  { in_test := true, question_index := 0,
    test_data := { company := "Acme"
                   role := "Developer"
                   technical_questions := fallback_technical
                   behavioral_questions := fallback_behavioral
                   user_answers := [] } }

/-- Ten one-word answers. -/
def ten_answers : List String :=
  ["a1", "a2", "a3", "a4", "a5", "a6", "a7", "a8", "a9", "a10"]

/-- The GUI state reached under `env_valid` by starting the test, entering
company `"Acme Corp"` and role `"Developer"`, and answering the first nine
questions: a session holding nine answers. -/
def c6wit_state : ChatState :=
  List.foldl (apply_step env_valid) init_state
    [Step.startTest, .user "Acme Corp", .user "Developer",
     .user "a1", .user "a2", .user "a3", .user "a4", .user "a5",
     .user "a6", .user "a7", .user "a8", .user "a9"]

/-- A raw response whose brace span decodes to five-element arrays of
numbers under each question key. -/
def c3cex_raw : String :=
  "\x7b\"technical_questions\": [1, 2, 3, 4, 5], \"behavioral_questions\": [6, 7, 8, 9, 10]\x7d"

/-- The decoded value of `c3cex_raw`, exactly what Python's `json.loads`
produces on it: two five-element arrays of numbers. -/
def c3cex_json : Json :=
  .obj [("technical_questions",
          .arr [.num 1, .num 2, .num 3, .num 4, .num 5]),
        ("behavioral_questions",
          .arr [.num 6, .num 7, .num 8, .num 9, .num 10])]

/-- A `json.loads` model agreeing with Python on `c3cex_raw`. -/
def c3cex_loads : String → Option Json :=
  fun s => if s = c3cex_raw then some c3cex_json else none

/-- A fresh chat state whose manager is in test mode (the state right after
pressing "Start Placement Test"). -/
def test_mode_state : ChatState :=
  { conversation_history := [],
    test_manager := { in_test := true, question_index := 0,
                      test_data := TestData.init } }

/-! Helper lemmas. -/

/-- Dropping while `p` holds commutes with appending one element on which `p`
fails. -/
theorem dropWhile_append_single (p : Char → Bool) (c : Char) (xs : List Char)
    (h : p c = false) :
    (xs ++ [c]).dropWhile p = xs.dropWhile p ++ [c] := by
  induction xs with
  | nil => simp [List.dropWhile, h]
  | cons x xs ih =>
    by_cases hx : p x <;> simp [List.dropWhile_cons, hx, ih]

/-- Stripping a list whose head is not whitespace keeps that head. -/
theorem pyStripChars_cons_of_not_space (c : Char) (l : List Char)
    (h : isPythonSpace c = false) :
    pyStripChars (c :: l) =
      c :: (l.reverse.dropWhile isPythonSpace).reverse := by
  unfold pyStripChars
  rw [List.dropWhile_cons, h]
  simp only [if_false, Bool.false_eq_true, List.reverse_cons]
  rw [dropWhile_append_single _ _ _ h, List.reverse_append]
  rfl

/-- Lowering a stripped string that begins with `E` cannot yield
`"valid"`. -/
theorem pyLower_pyStrip_headE_ne_valid (l : List Char) :
    pyLower (String.mk (pyStripChars ('E' :: l))) ≠ "valid" := by
  rw [pyStripChars_cons_of_not_space _ _ (by decide)]
  intro h
  rw [String.ext_iff] at h
  simp only [pyLower, List.map_cons] at h
  rw [List.cons_eq_cons] at h
  exact absurd h.1 (by decide)

/-- The output of `call_gemini_api` always has `E` as its first character unless it
is the extracted candidate text of a 200 response. -/
theorem pyLower_pyStrip_error_ne_valid (msg : String) :
    pyLower (pyStrip ("Error: " ++ msg)) ≠ "valid" := by
  have hd : ("Error: " ++ msg).data = 'E' :: ("rror: ".data ++ msg.data) := by
    rw [String.data_append]; rfl
  unfold pyStrip
  rw [hd]
  exact pyLower_pyStrip_headE_ne_valid _

/-- The non-200 sentinel also starts with `E` and never normalises to
`"valid"`. -/
theorem pyLower_pyStrip_status_ne_valid (status : Nat) (body : String) :
    pyLower (pyStrip ("Error " ++ toString status ++ ": " ++ body)) ≠ "valid" := by
  have hd : ("Error " ++ toString status ++ ": " ++ body).data =
      'E' :: ("rror ".data ++ (toString status).data ++ ": ".data ++ body.data) := by
    rw [String.data_append, String.data_append, String.data_append]
    rfl
  unfold pyStrip
  rw [hd]
  exact pyLower_pyStrip_headE_ne_valid _

/-- Successful parses deliver values of Python length five. -/
theorem parse_questions_len (loads : String → Option Json) (s : String)
    (t b : Json) (h : parse_questions loads s = some (t, b)) :
    pyLen t = some 5 ∧ pyLen b = some 5 := by
  unfold parse_questions at h
  cases hl : loads s with
  | none => simp [hl] at h
  | some data =>
    simp only [hl] at h
    cases ht : getKey data "technical_questions" with
    | none => simp [ht] at h
    | some tech =>
      simp only [ht] at h
      cases hb : getKey data "behavioral_questions" with
      | none => simp [hb] at h
      | some beh =>
        simp only [hb] at h
        cases hlt : pyLen tech with
        | none => simp [hlt] at h
        | some lt =>
          cases hlb : pyLen beh with
          | none => simp [hlt, hlb] at h
          | some lb =>
            simp only [hlt, hlb] at h
            by_cases h5 : lt ≠ 5 ∨ lb ≠ 5
            · rw [if_pos h5] at h
              exact absurd h (by simp)
            · rw [if_neg h5] at h
              push_neg at h5
              simp only [Option.some.injEq, Prod.mk.injEq] at h
              obtain ⟨h1, h2⟩ := h
              subst h1; subst h2
              rw [hlt, hlb, h5.1, h5.2]
              exact ⟨rfl, rfl⟩

/-- Below the technical length the current question is technical. -/
theorem current_question_tech (tm : TestManager)
    (h : tm.question_index < tm.test_data.technical_questions.length) :
    tm.current_question =
      tm.test_data.technical_questions.get? tm.question_index := by
  unfold TestManager.current_question
  rw [if_pos h]

/-- Between the technical and combined lengths the current question is
behavioral. -/
theorem current_question_beh (tm : TestManager)
    (h1 : tm.test_data.technical_questions.length ≤ tm.question_index)
    (h2 : tm.question_index < tm.test_data.technical_questions.length +
      tm.test_data.behavioral_questions.length) :
    tm.current_question =
      tm.test_data.behavioral_questions.get?
        (tm.question_index - tm.test_data.technical_questions.length) := by
  unfold TestManager.current_question
  rw [if_neg (by omega), if_pos h2]

/-- At or past the combined length there is no current question. -/
theorem current_question_none (tm : TestManager)
    (h : tm.test_data.technical_questions.length +
      tm.test_data.behavioral_questions.length ≤ tm.question_index) :
    tm.current_question = none := by
  unfold TestManager.current_question
  rw [if_neg (by omega), if_neg (by omega)]

/-- A present current question means the cursor is inside the combined
list. -/
theorem current_question_isSome_lt (tm : TestManager) (q : String)
    (h : tm.current_question = some q) :
    tm.question_index < tm.test_data.technical_questions.length +
      tm.test_data.behavioral_questions.length := by
  by_cases h1 : tm.question_index < tm.test_data.technical_questions.length
  · omega
  · by_cases h2 : tm.question_index < tm.test_data.technical_questions.length +
        tm.test_data.behavioral_questions.length
    · exact h2
    · rw [current_question_none tm (by omega)] at h
      exact absurd h (by simp)

/-- Evaluation of `next_question` on a present question: return it, increment unless it is
empty. -/
theorem next_question_of_some (tm : TestManager) (q : String)
    (h : tm.current_question = some q) :
    tm.next_question =
      (some q, if q = "" then tm
               else { tm with question_index := tm.question_index + 1 }) := by
  unfold TestManager.next_question
  rw [h]
  by_cases hq : q = "" <;> simp [hq]

/-- Evaluation of `next_question` on an exhausted list: `None`, state unchanged. -/
theorem next_question_of_none (tm : TestManager)
    (h : tm.current_question = none) :
    tm.next_question = (none, tm) := by
  unfold TestManager.next_question
  rw [h]

/-- The returned question of `next_question` is the current question. -/
theorem next_question_fst (tm : TestManager) :
    tm.next_question.1 = tm.current_question := by
  cases hc : tm.current_question with
  | none => rw [next_question_of_none tm hc]
  | some q => rw [next_question_of_some tm q hc]

/-- Evaluation of the transport-exception branch. -/
theorem call_api_exn (msg : String) :
    call_gemini_api (.exn msg) = "Error: " ++ msg := rfl

/-- Evaluation of the non-200 branch. -/
theorem call_api_non200 (status : Nat) (body : String) (ex : ExtractOutcome)
    (h : status ≠ 200) :
    call_gemini_api (.resp status body ex) =
      "Error " ++ toString status ++ ": " ++ body := by
  simp only [call_gemini_api]
  rw [if_neg h]

/-! C4 — Remote Model Client error taxonomy. -/

/-- C4 counterexample: HTTP status 201 is a success (2xx) response, yet
`call_gemini_api` does not return the candidate text `"hello"`; it branches
on `status_code == 200` only, so every non-200 status — 2xx included — yields
the `"Error <status>: <body>"` sentinel.  This refutes the claim that the
first text part is returned "on HTTP success". -/
theorem c4_counterexample :
    call_gemini_api (.resp 201 "Created" (.text "hello")) = "Error 201: Created" := by
  rfl

/-- C4 amended: `call_gemini_api` returns the first candidate text exactly on
HTTP status 200; on any other status (2xx or not) it returns
`"Error <status>: <body>"`; on a transport exception, or an extraction
exception in a 200 response, it returns `"Error: <message>"`; it never
raises (it is a total function into `String`). -/
theorem c4_call_gemini_api_amended :
    (∀ body s, call_gemini_api (.resp 200 body (.text s)) = s) ∧
    (∀ status body ex, status ≠ 200 →
      call_gemini_api (.resp status body ex) =
        "Error " ++ toString status ++ ": " ++ body) ∧
    (∀ body msg,
      call_gemini_api (.resp 200 body (.raises msg)) = "Error: " ++ msg) ∧
    (∀ msg, call_gemini_api (.exn msg) = "Error: " ++ msg) := by
  refine ⟨fun body s => rfl, fun status body ex h => ?_, fun body msg => rfl,
    fun msg => rfl⟩
  simp only [call_gemini_api]
  rw [if_neg h]

/-- Witness for C4 at the spec's stubbed input: a 500 response with body
`"server error"` yields exactly `"Error 500: server error"`. -/
theorem c4_witness :
    call_gemini_api (.resp 500 "server error" (.raises "boom")) =
      "Error 500: server error" := by
  rw [c4_call_gemini_api_amended.2.1 500 "server error" (.raises "boom") (by decide)]
  rfl

/-- Dispatch of `send_message` on whitespace-only input: nothing happens. -/
theorem send_message_empty (env : Env) (st : ChatState) (raw : String)
    (h : pyStrip raw = "") : send_message env st raw = (st, []) := by
  simp only [send_message]
  rw [if_pos h]

/-- Dispatch of `send_message` on flagged input: refusal rendered as an error, nothing
else happens. -/
theorem send_message_flagged (env : Env) (st : ChatState) (raw : String)
    (h1 : pyStrip raw ≠ "") (h2 : env.isProfane (pyStrip raw) = true) :
    send_message env st raw =
      (st, [.displayed "You" (pyStrip raw) false,
            .displayed "JoSi" refusal_message true]) := by
  simp only [send_message]
  rw [if_neg h1, if_pos h2]
  rfl

/-- Dispatch of `send_message` in test mode: the user turn is appended to the history and
the test flow runs on the manager. -/
theorem send_message_test (env : Env) (st : ChatState) (raw : String)
    (h1 : pyStrip raw ≠ "") (h2 : env.isProfane (pyStrip raw) = false)
    (h3 : st.test_manager.in_test = true) :
    send_message env st raw =
      ({ conversation_history := st.conversation_history ++
           [{ sender := "user", text := pyStrip raw }],
         test_manager := (handle_test_flow env st.test_manager (pyStrip raw)).1 },
       [.displayed "You" (pyStrip raw) false] ++
         (handle_test_flow env st.test_manager (pyStrip raw)).2) := by
  simp only [send_message]
  rw [if_neg h1, if_neg (by rw [h2]; simp), if_pos h3]

/-- Dispatch of `send_message` in normal mode: the user turn is appended, one remote call
is made on the composed prompt, and the response is appended as an assistant
turn unconditionally and rendered with the error flag iff it starts with
`"Error"`. -/
theorem send_message_normal (env : Env) (st : ChatState) (raw : String)
    (h1 : pyStrip raw ≠ "") (h2 : env.isProfane (pyStrip raw) = false)
    (h3 : st.test_manager.in_test = false) :
    send_message env st raw =
      ({ conversation_history := st.conversation_history ++
           [{ sender := "user", text := pyStrip raw }] ++
           [{ sender := "JoSi", text := normal_chat_response env st (pyStrip raw) }],
         test_manager := st.test_manager },
       [.displayed "You" (pyStrip raw) false,
        .apiCall (get_response_prompt
          (st.conversation_history ++ [{ sender := "user", text := pyStrip raw }])
          (pyStrip raw)),
        .displayed "JoSi" (normal_chat_response env st (pyStrip raw))
          ((normal_chat_response env st (pyStrip raw)).startsWith "Error")]) := by
  simp only [send_message, get_response]
  rw [if_neg h1, if_neg (by rw [h2]; simp), if_neg (by rw [h3]; simp),
    if_neg (by rw [h2]; simp)]
  rfl

/-! C3 — Question Generator fallback invariant. -/

/-- C3 counterexample: on a response whose brace span decodes — exactly as
Python's `json.loads` would — to five-element arrays of numbers under both
keys, the length check `len(...) != 5` passes and the numbers are returned
as the questions.  The generator therefore does not always return question
strings, refuting the claim's "exactly 5 technical and exactly 5 behavioral
question strings" for the parsed path (element types are never validated). -/
theorem c3_counterexample :
    gemini_generate_questions c3cex_loads c3cex_raw =
      (.arr [.num 1, .num 2, .num 3, .num 4, .num 5],
       .arr [.num 6, .num 7, .num 8, .num 9, .num 10]) := by
  rfl

/-- C3 amended: for every modelled `json.loads` and every raw response, both
returned values have Python length exactly 5 (the length check is the only
shape validation, so they are five question strings in the fallback case but
arbitrary length-5 JSON values when the response supplies them); the fixed
hardcoded fallback pair is returned exactly when decoding the brace span
fails, a key is absent, or a length differs from 5 — no failure is ever
propagated (the function is total). -/
theorem c3_generate_questions_amended (loads : String → Option Json)
    (raw : String) :
    pyLen (gemini_generate_questions loads raw).1 = some 5 ∧
    pyLen (gemini_generate_questions loads raw).2 = some 5 ∧
    (parse_questions loads (extract_json_span raw) = none →
      gemini_generate_questions loads raw = fallbackPair) ∧
    (∀ t b, parse_questions loads (extract_json_span raw) = some (t, b) →
      gemini_generate_questions loads raw = (t, b)) := by
  cases hp : parse_questions loads (extract_json_span raw) with
  | none =>
    have hg : gemini_generate_questions loads raw = fallbackPair := by
      unfold gemini_generate_questions
      rw [hp]
    rw [hg]
    exact ⟨rfl, rfl, fun _ => rfl,
      fun t b h => Option.noConfusion h⟩
  | some tb =>
    obtain ⟨t, b⟩ := tb
    have hg : gemini_generate_questions loads raw = (t, b) := by
      unfold gemini_generate_questions
      rw [hp]
    have hlen := parse_questions_len loads _ t b hp
    rw [hg]
    refine ⟨hlen.1, hlen.2, fun h => Option.noConfusion h,
      fun t2 b2 h => ?_⟩
    simp only [Option.some.injEq, Prod.mk.injEq] at h
    rw [h.1, h.2]

/-- Witness for C3: a remote response with no braces at all still yields the
full fallback pair, of length 5 on both sides. -/
theorem c3_witness :
    gemini_generate_questions (fun _ => none) "no json here" = fallbackPair ∧
    pyLen (gemini_generate_questions (fun _ => none) "no json here").1 = some 5 := by
  have h := c3_generate_questions_amended (fun _ => none) "no json here"
  exact ⟨h.2.2.1 rfl, h.1⟩

/-! C7 — Content Filter short-circuit. -/

/-- C7: for every input the Content Filter flags, message handling displays
the fixed refusal string (styled as an error), makes no remote call, and
leaves the conversation history — and the whole state — unchanged: neither
the user turn nor an assistant turn is appended. -/
theorem c7_profanity_short_circuit (env : Env) (st : ChatState) (raw : String)
    (hne : pyStrip raw ≠ "") (hp : env.isProfane (pyStrip raw) = true) :
    send_message env st raw =
      (st, [.displayed "You" (pyStrip raw) false,
            .displayed "JoSi" refusal_message true]) ∧
    (∀ p, Event.apiCall p ∉ (send_message env st raw).2) ∧
    (send_message env st raw).1.conversation_history = st.conversation_history := by
  have hs := send_message_flagged env st raw hne hp
  refine ⟨hs, fun p hmem => ?_, by rw [hs]⟩
  rw [hs] at hmem
  simp at hmem

/-- Witness for C7: a concrete flagged input under the all-flagging stub. -/
theorem c7_witness :
    send_message env_flagged init_state "bad words" =
      (init_state, [.displayed "You" (pyStrip "bad words") false,
                    .displayed "JoSi" refusal_message true]) := by
  exact (c7_profanity_short_circuit env_flagged init_state "bad words"
    (by decide) rfl).1

/-! C9 — history frame effect of test mode. -/

/-- C9: every dispatched (non-empty, non-flagged) input in test mode is
appended to the conversation history as a user turn, and nothing else is:
the test flow never appends an assistant turn, so the history gains exactly
the user turn. -/
theorem c9_test_mode_history (env : Env) (st : ChatState) (raw : String)
    (hne : pyStrip raw ≠ "") (hp : env.isProfane (pyStrip raw) = false)
    (ht : st.test_manager.in_test = true) :
    (send_message env st raw).1.conversation_history =
      st.conversation_history ++ [{ sender := "user", text := pyStrip raw }] := by
  rw [send_message_test env st raw hne hp ht]

/-- Witness for C9: the company-name attempt `"Acme Corp"` lands in the
normal-chat history as a user turn. -/
theorem c9_witness :
    (send_message env_valid test_mode_state "Acme Corp").1.conversation_history =
      test_mode_state.conversation_history ++
        [{ sender := "user", text := pyStrip "Acme Corp" }] := by
  exact c9_test_mode_history env_valid test_mode_state "Acme Corp"
    (by decide) rfl rfl

/-! C2 — normal-chat error handling. -/

/-- C2 counterexample: with the remote stubbed to HTTP 500 and body
`"server error"`, the response `"Error 500: server error"` is returned and
nevertheless appended to the conversation history as an assistant turn —
`process_normal_message` appends unconditionally, refuting the claim that no
assistant turn is appended on an error-prefixed result. -/
theorem c2_counterexample :
    (send_message env500 init_state "hi").1.conversation_history =
      [{ sender := "user", text := "hi" },
       { sender := "JoSi", text := "Error 500: server error" }] := by
  decide

/-- C2 amended: in normal mode the session returns the remote result
unmodified and appends the assistant turn unconditionally — for
error-prefixed sentinels too; the error prefix controls only the `is_error`
rendering flag of the displayed message. -/
theorem c2_normal_chat_amended (env : Env) (st : ChatState) (raw : String)
    (hne : pyStrip raw ≠ "") (hp : env.isProfane (pyStrip raw) = false)
    (ht : st.test_manager.in_test = false) :
    (send_message env st raw).1.conversation_history =
      st.conversation_history ++
        [{ sender := "user", text := pyStrip raw }] ++
        [{ sender := "JoSi", text := normal_chat_response env st (pyStrip raw) }] ∧
    Event.displayed "JoSi" (normal_chat_response env st (pyStrip raw))
        ((normal_chat_response env st (pyStrip raw)).startsWith "Error")
      ∈ (send_message env st raw).2 := by
  have hs := send_message_normal env st raw hne hp ht
  constructor
  · rw [hs]
  · rw [hs]
    simp

/-- Witness for C2 at a concrete non-error exchange: the assistant turn is
appended. -/
theorem c2_witness :
    (send_message env_valid init_state "hello").1.conversation_history =
      init_state.conversation_history ++
        [{ sender := "user", text := pyStrip "hello" }] ++
        [{ sender := "JoSi",
           text := normal_chat_response env_valid init_state (pyStrip "hello") }] := by
  exact (c2_normal_chat_amended env_valid init_state "hello"
    (by decide) rfl rfl).1

/-! C8 — prompt composition window. -/

/-- C8: in normal mode exactly one remote call is made, on the prompt
composed of the fixed system instructions, the at-most-five most recent
recorded turns (the just-appended user turn included) rendered as
`"sender: text"` lines, and the new user turn; the prompt depends only on
the last five recorded turns, so older turns — though retained in the
history — are never included. -/
theorem c8_prompt_window (env : Env) (st : ChatState) (raw : String)
    (hne : pyStrip raw ≠ "") (hp : env.isProfane (pyStrip raw) = false)
    (ht : st.test_manager.in_test = false) :
    (send_message env st raw).2 =
      [.displayed "You" (pyStrip raw) false,
       .apiCall (get_response_prompt
         (st.conversation_history ++ [{ sender := "user", text := pyStrip raw }])
         (pyStrip raw)),
       .displayed "JoSi" (normal_chat_response env st (pyStrip raw))
         ((normal_chat_response env st (pyStrip raw)).startsWith "Error")] ∧
    (∀ hist2, pyLastN 5 hist2 =
        pyLastN 5 (st.conversation_history ++
          [{ sender := "user", text := pyStrip raw }]) →
      get_response_prompt hist2 (pyStrip raw) =
        get_response_prompt
          (st.conversation_history ++ [{ sender := "user", text := pyStrip raw }])
          (pyStrip raw)) ∧
    (pyLastN 5 (st.conversation_history ++
      [{ sender := "user", text := pyStrip raw }])).length ≤ 5 := by
  refine ⟨?_, fun hist2 hh => ?_, ?_⟩
  · rw [send_message_normal env st raw hne hp ht]
  · unfold get_response_prompt
    rw [hh]
  · unfold pyLastN
    rw [List.length_drop]
    omega

/-- Witness for C8: the concrete event trace of a first normal-mode message
under the valid stub. -/
theorem c8_witness :
    (send_message env_valid init_state "hello").2 =
      [.displayed "You" (pyStrip "hello") false,
       .apiCall (get_response_prompt
         (init_state.conversation_history ++
           [{ sender := "user", text := pyStrip "hello" }]) (pyStrip "hello")),
       .displayed "JoSi" (normal_chat_response env_valid init_state (pyStrip "hello"))
         ((normal_chat_response env_valid init_state (pyStrip "hello")).startsWith
           "Error")] := by
  exact (c8_prompt_window env_valid init_state "hello" (by decide) rfl rfl).1

/-! C5 — Company Validator strict match. -/

/-- C5: the Company Validator returns true exactly when the stripped,
case-lowered remote response equals `"valid"`; in particular every
error-sentinel response — a transport exception or any non-200 status —
yields `false`, because such responses start with `E` and can never
normalise to `"valid"`. -/
theorem c5_company_validator (env : Env) (name : String) :
    (gemini_check_company env name = true ↔
      pyLower (pyStrip (call_gemini_api
        (env.remote (company_check_prompt name)))) = "valid") ∧
    (∀ msg, env.remote (company_check_prompt name) = .exn msg →
      gemini_check_company env name = false) ∧
    (∀ status body ex,
      env.remote (company_check_prompt name) = .resp status body ex →
      status ≠ 200 → gemini_check_company env name = false) := by
  refine ⟨?_, fun msg h => ?_, fun status body ex h hs => ?_⟩
  · unfold gemini_check_company
    exact beq_iff_eq
  · unfold gemini_check_company
    rw [h, call_api_exn msg, beq_eq_false_iff_ne]
    exact pyLower_pyStrip_error_ne_valid msg
  · unfold gemini_check_company
    rw [h, call_api_non200 status body ex hs, beq_eq_false_iff_ne]
    exact pyLower_pyStrip_status_ne_valid status body

/-- Witness for C5: under the 500-stub environment the validator rejects
`"Acme Corp"`. -/
theorem c5_witness : gemini_check_company env500 "Acme Corp" = false := by
  exact (c5_company_validator env500 "Acme Corp").2.2 500 "server error"
    (.raises "boom") rfl (by decide)

/-! Sequencing lemmas for the test flow. -/

/-- The current question inside the combined range, via the concatenated
list. -/
theorem current_question_concat (tm : TestManager)
    (h : tm.question_index < tm.test_data.technical_questions.length +
      tm.test_data.behavioral_questions.length) :
    tm.current_question =
      (tm.test_data.technical_questions ++
        tm.test_data.behavioral_questions).get? tm.question_index := by
  by_cases h1 : tm.question_index < tm.test_data.technical_questions.length
  · rw [current_question_tech tm h1, List.get?_append h1]
  · rw [current_question_beh tm (by omega) h, List.get?_append_right (by omega)]

/-- Evaluation of `ask_next_question` on a present, non-empty question: increment the
cursor and display the question labelled with the incremented cursor. -/
theorem ask_next_some (env : Env) (tm : TestManager) (q : String)
    (hq : tm.current_question = some q) (hqne : q ≠ "") :
    ask_next_question env tm =
      ({ tm with question_index := tm.question_index + 1 },
       [.displayed "JoSi"
         ("**Q" ++ toString (tm.question_index + 1) ++ ":** " ++ q) false]) := by
  unfold ask_next_question
  rw [next_question_of_some tm q hq, if_neg hqne]

/-- An answer stored strictly before the last slot routes to
`ask_next_question`. -/
theorem handle_answer_step (env : Env) (tm : TestManager) (a : String)
    (hc : tm.test_data.company ≠ "") (hr : tm.test_data.role ≠ "")
    (hfew : tm.test_data.user_answers.length + 1 <
      tm.test_data.technical_questions.length +
        tm.test_data.behavioral_questions.length) :
    handle_test_flow env tm a = ask_next_question env (tm.store_answer a) := by
  have hcol : (tm.store_answer a).all_answers_collected = false := by
    unfold TestManager.all_answers_collected TestManager.store_answer
    rw [decide_eq_false_iff_not]
    simp only [List.length_append, List.length_cons, List.length_nil]
    omega
  simp only [handle_test_flow]
  rw [if_neg hc, if_neg hr, if_neg (by rw [hcol]; simp)]

/-- The answer that fills the last slot triggers the evaluation and the
exit. -/
theorem handle_answer_last (env : Env) (tm : TestManager) (a : String)
    (hc : tm.test_data.company ≠ "") (hr : tm.test_data.role ≠ "")
    (hfull : tm.test_data.technical_questions.length +
      tm.test_data.behavioral_questions.length ≤
      tm.test_data.user_answers.length + 1) :
    handle_test_flow env tm a =
      evaluate_and_exit env (tm.store_answer a).test_data := by
  have hcol : (tm.store_answer a).all_answers_collected = true := by
    unfold TestManager.all_answers_collected TestManager.store_answer
    rw [decide_eq_true_eq]
    simp only [List.length_append, List.length_cons, List.length_nil]
    omega
  simp only [handle_test_flow]
  rw [if_neg hc, if_neg hr, if_pos hcol]

/-- Role entry: store the role, install the generated questions, and ask the
first question. -/
theorem handle_role_step (env : Env) (tm : TestManager) (input : String)
    (hc : tm.test_data.company ≠ "") (hro : tm.test_data.role = "") :
    handle_test_flow env tm input =
      ((ask_next_question env
          { tm with test_data :=
              { tm.test_data with
                role := input
                technical_questions := (env.genQuestions input).1
                behavioral_questions := (env.genQuestions input).2 } }).1,
       [.apiCall (question_gen_prompt input),
        .displayed "JoSi" "Excellent! Let\x27s begin with the first question:"
          false] ++
       (ask_next_question env
          { tm with test_data :=
              { tm.test_data with
                role := input
                technical_questions := (env.genQuestions input).1
                behavioral_questions := (env.genQuestions input).2 } }).2) := by
  simp only [handle_test_flow]
  rw [if_neg hc, if_pos hro]

/-- The block `question_events` is the map of `question_event` over a shifted range. -/
theorem question_events_eq_range_map (qlist : List String) :
    ∀ (n start : Nat), question_events qlist start n =
      (List.range n).map (fun j => question_event qlist (start + j)) := by
  intro n
  induction n with
  | zero => intro start; rfl
  | succ n ih =>
    intro start
    rw [List.range_succ_eq_map, List.map_cons, List.map_map]
    show question_event qlist start :: question_events qlist (start + 1) n = _
    rw [ih (start + 1)]
    congr 1
    have hfun : (fun j => question_event qlist (start + 1 + j)) =
        ((fun j => question_event qlist (start + j)) ∘ Nat.succ) := by
      funext j
      show question_event qlist (start + 1 + j) =
        question_event qlist (start + (j + 1))
      congr 1
      omega
    rw [hfun]

/-- Feeding the pending answers one by one from a mid-test state: each of the
first `pending.length - 1` answers advances the cursor and asks the next
question in order, and the final answer triggers exactly one evaluation call
carrying all answers, after which the manager is replaced by a fresh one. -/
theorem run_answers_spec (env : Env) (c r : String) (tech beh : List String)
    (hc : c ≠ "") (hr : r ≠ "") (h5t : tech.length = 5) (h5b : beh.length = 5)
    (hqne : ∀ q ∈ tech ++ beh, q ≠ "") :
    ∀ (pending done : List String) (tm : TestManager),
      tm.test_data = { company := c, role := r, technical_questions := tech,
                       behavioral_questions := beh, user_answers := done } →
      tm.question_index = done.length + 1 →
      done.length + pending.length = 10 → pending ≠ [] →
      run_answers env tm pending =
        (TestManager.init,
         question_events (tech ++ beh) (done.length + 1) (pending.length - 1) ++
           [.apiCall (evaluation_prompt
              { company := c, role := r, technical_questions := tech,
                behavioral_questions := beh, user_answers := done ++ pending }),
            .displayed "JoSi" (call_gemini_api (env.remote (evaluation_prompt
              { company := c, role := r, technical_questions := tech,
                behavioral_questions := beh,
                user_answers := done ++ pending }))) false,
            .displayed "JoSi" exit_test_message false]) := by
  intro pending
  induction pending with
  | nil =>
    intro done tm _ _ _ hne
    exact absurd rfl hne
  | cons a rest ih =>
    intro done tm htd hidx hsum _
    simp only [run_answers]
    by_cases hrest : rest = []
    · subst hrest
      have hd9 : done.length = 9 := by simp at hsum; omega
      rw [handle_answer_last env tm a (by rw [htd]; exact hc)
        (by rw [htd]; exact hr)
        (by rw [htd]
            show tech.length + beh.length ≤ done.length + 1
            omega)]
      have hst : (tm.store_answer a).test_data =
          { company := c, role := r, technical_questions := tech,
            behavioral_questions := beh, user_answers := done ++ [a] } := by
        show ({ tm.test_data with
                user_answers := tm.test_data.user_answers ++ [a] } : TestData) = _
        rw [htd]
      rw [hst]
      simp only [run_answers, evaluate_and_exit, List.length_cons,
        List.length_nil, Nat.zero_add, Nat.sub_self, question_events,
        List.append_nil, List.nil_append]
    · have hrlen : 1 ≤ rest.length := by
        cases rest with
        | nil => exact absurd rfl hrest
        | cons x xs => simp
      have hsum' : done.length + rest.length + 1 = 10 := by
        simp at hsum; omega
      have hfew : done.length + 1 < tech.length + beh.length := by omega
      have hidx2 : done.length + 1 < (tech ++ beh).length := by
        rw [List.length_append]; omega
      have hq : (tech ++ beh).get? (done.length + 1) =
          some ((tech ++ beh).get ⟨done.length + 1, hidx2⟩) :=
        List.get?_eq_get hidx2
      have hqne' : (tech ++ beh).get ⟨done.length + 1, hidx2⟩ ≠ "" :=
        hqne _ (List.get_mem _ _ _)
      rw [handle_answer_step env tm a (by rw [htd]; exact hc)
        (by rw [htd]; exact hr)
        (by rw [htd]
            show done.length + 1 < tech.length + beh.length
            omega)]
      have hcur : (tm.store_answer a).current_question =
          some ((tech ++ beh).get ⟨done.length + 1, hidx2⟩) := by
        rw [current_question_concat (tm.store_answer a)
          (by show tm.question_index < tm.test_data.technical_questions.length +
                tm.test_data.behavioral_questions.length
              rw [hidx, htd]
              show done.length + 1 < tech.length + beh.length
              omega)]
        show (tm.test_data.technical_questions ++
          tm.test_data.behavioral_questions).get? tm.question_index = _
        rw [htd, hidx]
        exact hq
      rw [ask_next_some env (tm.store_answer a) _ hcur hqne']
      have hsidx : (tm.store_answer a).question_index = done.length + 1 := by
        show tm.question_index = done.length + 1
        exact hidx
      rw [hsidx]
      have htd2 : ({ tm.store_answer a with
          question_index := done.length + 1 + 1 } : TestManager).test_data =
          { company := c, role := r, technical_questions := tech,
            behavioral_questions := beh, user_answers := done ++ [a] } := by
        show ({ tm.test_data with
                user_answers := tm.test_data.user_answers ++ [a] } : TestData) = _
        rw [htd]
      have hidx3 : ({ tm.store_answer a with
          question_index := done.length + 1 + 1 } : TestManager).question_index =
          (done ++ [a]).length + 1 := by
        show done.length + 1 + 1 = (done ++ [a]).length + 1
        simp
      have hsum2 : (done ++ [a]).length + rest.length = 10 := by
        simp
        omega
      rw [ih (done ++ [a]) _ htd2 hidx3 hsum2 hrest]
      have hqev : question_event (tech ++ beh) (done.length + 1) =
          .displayed "JoSi" ("**Q" ++ toString (done.length + 1 + 1) ++ ":** " ++
            (tech ++ beh).get ⟨done.length + 1, hidx2⟩) false := by
        unfold question_event
        rw [hq]
        rfl
      rw [← hqev]
      have hlen1 : (a :: rest).length - 1 = rest.length - 1 + 1 := by
        simp
        omega
      rw [hlen1]
      simp only [question_events]
      have hlen2 : (done ++ [a]).length + 1 = done.length + 1 + 1 := by simp
      rw [hlen2, List.append_cons done a rest]
      simp

/-! C6 — test session invariants. -/

/-- The session invariant only reads `test_data`. -/
theorem session_inv_td (env : Env) (tm tm' : TestManager)
    (h : tm'.test_data = tm.test_data) (hinv : SessionInvFull env tm) :
    SessionInvFull env tm' := by
  unfold SessionInvFull at hinv ⊢
  rw [h]
  exact hinv

/-- The fresh manager satisfies the session invariant. -/
theorem init_session_inv (env : Env) : SessionInvFull env TestManager.init :=
  ⟨fun h => absurd rfl h, fun h => absurd rfl h, fun h => absurd rfl h,
   fun _ => rfl, by decide⟩

/-- The step `next_question` never changes the test data. -/
theorem next_question_snd_td (tm : TestManager) :
    tm.next_question.2.test_data = tm.test_data := by
  cases hc : tm.current_question with
  | none => rw [next_question_of_none tm hc]
  | some q =>
    rw [next_question_of_some tm q hc]
    by_cases hq : q = "" <;> simp [hq]

/-- The step `ask_next_question` preserves the session invariant: it either leaves the
test data unchanged or installs the fresh manager. -/
theorem ask_preserves_inv (env : Env) (tm : TestManager)
    (hinv : SessionInvFull env tm) :
    SessionInvFull env (ask_next_question env tm).1 := by
  unfold ask_next_question
  cases hq : tm.next_question with
  | mk q tm1 =>
    cases q with
    | none => exact init_session_inv env
    | some s =>
      have htd1 : tm1.test_data = tm.test_data := by
        have h := next_question_snd_td tm
        rw [hq] at h
        exact h
      exact session_inv_td env tm tm1 htd1 hinv

/-- One test-flow step preserves the session invariant. -/
theorem handle_preserves_inv (env : Env)
    (hwf : ∀ r, (env.genQuestions r).1.length = 5 ∧
      (env.genQuestions r).2.length = 5)
    (tm : TestManager) (input : String) (hin : input ≠ "")
    (hinv : SessionInvFull env tm) :
    SessionInvFull env (handle_test_flow env tm input).1 := by
  obtain ⟨i1, i2, i3, i4, i5⟩ := hinv
  by_cases hcom : tm.test_data.company = ""
  · simp only [handle_test_flow]
    rw [if_pos hcom]
    by_cases hval : gemini_check_company env input = true
    · rw [if_pos hval]
      have hrole0 : tm.test_data.role = "" := by
        by_contra h
        exact absurd hcom (i2 h)
      exact ⟨fun _ => hval, fun _ => hin, fun hrole => absurd hrole0 hrole,
        fun h => i4 h, i5⟩
    · rw [if_neg hval]
      exact ⟨i1, i2, i3, i4, i5⟩
  · simp only [handle_test_flow]
    rw [if_neg hcom]
    by_cases hrole : tm.test_data.role = ""
    · rw [if_pos hrole]
      apply ask_preserves_inv
      exact ⟨i1, fun _ => hcom, fun _ => ⟨rfl, rfl⟩,
        fun hr0 => absurd hr0 hin, i5⟩
    · rw [if_neg hrole]
      by_cases hcol : (tm.store_answer input).all_answers_collected = true
      · rw [if_pos hcol]
        exact init_session_inv env
      · rw [if_neg hcol]
        apply ask_preserves_inv
        have hneed : tm.test_data.technical_questions.length +
            tm.test_data.behavioral_questions.length = 10 := by
          obtain ⟨ht, hb⟩ := i3 hrole
          rw [ht, hb, (hwf tm.test_data.role).1, (hwf tm.test_data.role).2]
        have hlt : (tm.store_answer input).test_data.user_answers.length ≤ 9 := by
          unfold TestManager.all_answers_collected TestManager.store_answer
            at hcol
          rw [decide_eq_true_eq] at hcol
          simp only [List.length_append, List.length_cons, List.length_nil]
            at hcol
          show (tm.test_data.user_answers ++ [input]).length ≤ 9
          rw [List.length_append]
          simp only [List.length_cons, List.length_nil]
          omega
        exact ⟨i1, i2, i3, fun h => absurd h hrole, hlt⟩

/-- Every reachable state satisfies the session invariant. -/
theorem reachable_inv (env : Env)
    (hwf : ∀ r, (env.genQuestions r).1.length = 5 ∧
      (env.genQuestions r).2.length = 5) :
    ∀ st, Reachable env st → SessionInvFull env st.test_manager := by
  intro st h
  induction h with
  | init => exact init_session_inv env
  | step st s hst ih =>
    cases s with
    | user raw =>
      show SessionInvFull env (send_message env st raw).1.test_manager
      by_cases h1 : pyStrip raw = ""
      · rw [send_message_empty env st raw h1]
        exact ih
      · by_cases h2 : env.isProfane (pyStrip raw) = true
        · rw [send_message_flagged env st raw h1 h2]
          exact ih
        · have h2f : env.isProfane (pyStrip raw) = false :=
            Bool.eq_false_iff.mpr h2
          by_cases h3 : st.test_manager.in_test = true
          · rw [send_message_test env st raw h1 h2f h3]
            exact handle_preserves_inv env hwf st.test_manager (pyStrip raw)
              h1 ih
          · have h3f : st.test_manager.in_test = false :=
              Bool.eq_false_iff.mpr h3
            rw [send_message_normal env st raw h1 h2f h3f]
            exact ih
    | startTest =>
      show SessionInvFull env
        (if st.test_manager.in_test = true then st
         else { st with test_manager :=
           { st.test_manager with in_test := true } }).test_manager
      by_cases h : st.test_manager.in_test = true
      · rw [if_pos h]
        exact ih
      · rw [if_neg h]
        exact session_inv_td env st.test_manager _ rfl ih
    | exitTest =>
      show SessionInvFull env
        (if st.test_manager.in_test = true then
          { st with test_manager := TestManager.init }
         else st).test_manager
      by_cases h : st.test_manager.in_test = true
      · rw [if_pos h]
        exact init_session_inv env
      · rw [if_neg h]
        exact ih

/-- Every interface action keeps reachability under a step list. -/
theorem reachable_foldl (env : Env) (steps : List Step) :
    ∀ st, Reachable env st →
      Reachable env (List.foldl (apply_step env) st steps) := by
  induction steps with
  | nil => intro st h; exact h
  | cons s rest ih =>
    intro st h
    exact ih _ (Reachable.step st s h)

/-- C6: in every reachable state, the stored company has passed the Company
Validator, a stored role implies a stored company, at most ten answers are
stored, and the step that stores the tenth answer performs the evaluation
call (with all ten answers embedded) and replaces the session with a fresh
manager — it is discarded, not reused. -/
theorem c6_invariants (env : Env) (st : ChatState)
    (hwf : ∀ r, (env.genQuestions r).1.length = 5 ∧
      (env.genQuestions r).2.length = 5)
    (hreach : Reachable env st) :
    (st.test_manager.test_data.company ≠ "" →
      gemini_check_company env st.test_manager.test_data.company = true) ∧
    (st.test_manager.test_data.role ≠ "" →
      st.test_manager.test_data.company ≠ "") ∧
    st.test_manager.test_data.user_answers.length ≤ 10 ∧
    (∀ raw, st.test_manager.in_test = true →
      st.test_manager.test_data.role ≠ "" →
      st.test_manager.test_data.user_answers.length = 9 →
      pyStrip raw ≠ "" → env.isProfane (pyStrip raw) = false →
      (send_message env st raw).1.test_manager = TestManager.init ∧
      Event.apiCall (evaluation_prompt
          ((st.test_manager.store_answer (pyStrip raw)).test_data))
        ∈ (send_message env st raw).2) := by
  obtain ⟨i1, i2, i3, i4, i5⟩ := reachable_inv env hwf st hreach
  refine ⟨i1, i2, le_trans i5 (by omega),
    fun raw hin hrole h9 hne hprof => ?_⟩
  have hcomp := i2 hrole
  rw [send_message_test env st raw hne hprof hin]
  have hfull : st.test_manager.test_data.technical_questions.length +
      st.test_manager.test_data.behavioral_questions.length ≤
      st.test_manager.test_data.user_answers.length + 1 := by
    obtain ⟨ht, hb⟩ := i3 hrole
    rw [ht, hb, (hwf _).1, (hwf _).2, h9]
  rw [handle_answer_last env st.test_manager (pyStrip raw) hcomp hrole hfull]
  constructor
  · rfl
  · simp [evaluate_and_exit]

/-- Witness for C6: after company, role and nine answers under the valid
stub, the tenth answer discards the session. -/
theorem c6_witness :
    (send_message env_valid c6wit_state "final answer").1.test_manager =
      TestManager.init := by
  have h := c6_invariants env_valid c6wit_state (fun r => ⟨rfl, rfl⟩)
    (reachable_foldl env_valid _ init_state Reachable.init)
  exact (h.2.2.2 "final answer" (by decide) (by decide) (by decide)
    (by decide) rfl).1

/-! C1 — Test Sequencer question order. -/

/-- C1 counterexample: with the populated QuestionSet
`["A", "", "C", "D", "E"]` / `["F".."J"]` and question 1 already asked, the
first answer does not elicit question 2: `next_question` picks the empty
second technical question, the truthiness check `if q:` skips the increment,
and the bot displays `"**Q1:** "` — a stale label with empty content — while
`question_index` stays 1, so the fixed order technical[0..4] then
behavioral[0..4] is not asked.  This refutes the claim that after answer `i`
with `i+1 < 10` question `i+2` is emitted. -/
theorem c1_counterexample :
    handle_test_flow env_empty_q c1cex_tm "first answer" =
      ({ c1cex_tm with test_data :=
           { c1cex_tm.test_data with user_answers := ["first answer"] } },
       [.displayed "JoSi" "**Q1:** " false]) := by
  decide

/-- C1 amended: starting from a session whose company is accepted and whose
role is not yet entered, feeding the role and then any ten answers (empty
strings included) asks exactly the ten questions technical[0..4] then
behavioral[0..4], in order and numbered 1..10, before performing exactly one
evaluation call embedding all ten answers — provided the generated
QuestionSet consists of ten non-empty questions (an empty-string question
stalls the cursor, per the counterexample). -/
theorem c1_test_sequencer_amended (env : Env) (c r : String)
    (tech beh : List String) (answers : List String) (tm : TestManager)
    (hgen : env.genQuestions r = (tech, beh))
    (h5t : tech.length = 5) (h5b : beh.length = 5)
    (hqne : ∀ q ∈ tech ++ beh, q ≠ "")
    (hc : c ≠ "") (hr : r ≠ "")
    (htd : tm.test_data =
      { company := c, role := "", technical_questions := [],
        behavioral_questions := [], user_answers := [] })
    (hidx : tm.question_index = 0)
    (hlen : answers.length = 10) :
    run_answers env tm (r :: answers) =
      (TestManager.init,
       [.apiCall (question_gen_prompt r),
        .displayed "JoSi" "Excellent! Let\x27s begin with the first question:"
          false] ++
       (List.range 10).map (fun j => question_event (tech ++ beh) j) ++
       [.apiCall (evaluation_prompt
          { company := c, role := r, technical_questions := tech,
            behavioral_questions := beh, user_answers := answers }),
        .displayed "JoSi" (call_gemini_api (env.remote (evaluation_prompt
          { company := c, role := r, technical_questions := tech,
            behavioral_questions := beh, user_answers := answers }))) false,
        .displayed "JoSi" exit_test_message false]) := by
  simp only [run_answers]
  rw [handle_role_step env tm r (by rw [htd]; exact hc) (by rw [htd])]
  set tmR : TestManager :=
    { tm with test_data :=
        { tm.test_data with
          role := r
          technical_questions := (env.genQuestions r).1
          behavioral_questions := (env.genQuestions r).2 } } with htmR
  have h0 : 0 < (tech ++ beh).length := by rw [List.length_append]; omega
  have hq0 : (tech ++ beh).get? 0 = some ((tech ++ beh).get ⟨0, h0⟩) :=
    List.get?_eq_get h0
  have hq0ne : (tech ++ beh).get ⟨0, h0⟩ ≠ "" := hqne _ (List.get_mem _ _ _)
  have hcur : tmR.current_question = some ((tech ++ beh).get ⟨0, h0⟩) := by
    rw [current_question_concat tmR (by
      rw [htmR]
      show tm.question_index <
        (env.genQuestions r).1.length + (env.genQuestions r).2.length
      rw [hidx, hgen]
      show 0 < tech.length + beh.length
      omega)]
    rw [htmR]
    show ((env.genQuestions r).1 ++ (env.genQuestions r).2).get?
      tm.question_index = _
    rw [hgen, hidx]
    exact hq0
  rw [ask_next_some env tmR _ hcur hq0ne]
  dsimp only
  have htd2 : ({ tmR with question_index := tmR.question_index + 1 } :
      TestManager).test_data =
      { company := c, role := r, technical_questions := tech,
        behavioral_questions := beh, user_answers := [] } := by
    show tmR.test_data = _
    rw [htmR]
    show ({ tm.test_data with
            role := r
            technical_questions := (env.genQuestions r).1
            behavioral_questions := (env.genQuestions r).2 } : TestData) = _
    rw [htd, hgen]
  have hidx3 : ({ tmR with question_index := tmR.question_index + 1 } :
      TestManager).question_index = ([] : List String).length + 1 := by
    show tmR.question_index + 1 = _
    rw [htmR]
    show tm.question_index + 1 = _
    rw [hidx]
    rfl
  have hsum0 : ([] : List String).length + answers.length = 10 := by
    simp [hlen]
  have hansne : answers ≠ [] := by
    intro h
    rw [h] at hlen
    exact absurd hlen (by decide)
  rw [run_answers_spec env c r tech beh hc hr h5t h5b hqne answers [] _
    htd2 hidx3 hsum0 hansne]
  dsimp only
  have hRidx : tmR.question_index = 0 := by
    rw [htmR]
    exact hidx
  rw [hRidx]
  have hqev0 : question_event (tech ++ beh) 0 =
      .displayed "JoSi" ("**Q" ++ toString (0 + 1) ++ ":** " ++
        (tech ++ beh).get ⟨0, h0⟩) false := by
    unfold question_event
    rw [hq0]
    rfl
  rw [← hqev0]
  simp only [List.length_nil, List.nil_append]
  rw [hlen, show (10 : Nat) - 1 = 9 from rfl]
  have hstack : question_event (tech ++ beh) 0 ::
      question_events (tech ++ beh) (0 + 1) 9 =
      (List.range 10).map (fun j => question_event (tech ++ beh) j) := by
    show question_events (tech ++ beh) 0 (9 + 1) = _
    rw [question_events_eq_range_map]
    have hfun : (fun j => question_event (tech ++ beh) (0 + j)) =
        (fun j => question_event (tech ++ beh) j) := by
      funext j
      rw [Nat.zero_add]
    rw [hfun]
  rw [← hstack]
  simp

/-- Witness for C1: the concrete run under the valid stub with the fallback
questions, company `"Acme"`, role `"Developer"` and ten one-word answers
reaches a fresh manager. -/
theorem c1_witness :
    (run_answers env_valid
      { in_test := true, question_index := 0,
        test_data := { company := "Acme", role := "", technical_questions := [],
                       behavioral_questions := [], user_answers := [] } }
      ("Developer" :: ten_answers)).1 = TestManager.init := by
  rw [c1_test_sequencer_amended env_valid "Acme" "Developer"
    fallback_technical fallback_behavioral ten_answers _ rfl rfl rfl
    (by decide) (by decide) (by decide) rfl rfl rfl]

/-- C10 counterexample: with the empty string as the current technical
question, `next_question` returns it (Python `""` is not `None`) but the
truthiness guard `if q:` skips the increment, so `question_index` stays 0
instead of advancing by exactly 1 as the claim states. -/
theorem c10_counterexample :
    TestManager.next_question c10cex_tm = (some "", c10cex_tm) := by
  decide

/-- C10 amended: `next_question` returns the question at `question_index`
(from the technical list below its length, then from the behavioral list),
returns `None` leaving the index unchanged at or past the total, and
increments the index by exactly 1 precisely when the returned question is a
non-empty string — an empty-string question is returned with the index left
unchanged.  The index is monotone and never moves past the total. -/
theorem c10_next_question_amended (tm : TestManager) :
    (tm.question_index < tm.test_data.technical_questions.length →
      tm.next_question.1 =
        tm.test_data.technical_questions.get? tm.question_index) ∧
    (tm.test_data.technical_questions.length ≤ tm.question_index →
      tm.question_index < tm.test_data.technical_questions.length +
        tm.test_data.behavioral_questions.length →
      tm.next_question.1 =
        tm.test_data.behavioral_questions.get?
          (tm.question_index - tm.test_data.technical_questions.length)) ∧
    (tm.test_data.technical_questions.length +
        tm.test_data.behavioral_questions.length ≤ tm.question_index →
      tm.next_question = (none, tm)) ∧
    (∀ s, tm.next_question.1 = some s → s ≠ "" →
      tm.next_question.2 = { tm with question_index := tm.question_index + 1 }) ∧
    (∀ s, tm.next_question.1 = some s → s = "" → tm.next_question.2 = tm) ∧
    tm.question_index ≤ tm.next_question.2.question_index ∧
    (tm.question_index ≤ tm.test_data.technical_questions.length +
        tm.test_data.behavioral_questions.length →
      tm.next_question.2.question_index ≤
        tm.test_data.technical_questions.length +
          tm.test_data.behavioral_questions.length) := by
  refine ⟨fun h1 => ?_, fun h1 h2 => ?_, fun h12 => ?_, fun s hs hse => ?_,
    fun s hs hse => ?_, ?_, fun hle => ?_⟩
  · rw [next_question_fst tm, current_question_tech tm h1]
  · rw [next_question_fst tm, current_question_beh tm h1 h2]
  · exact next_question_of_none tm (current_question_none tm h12)
  · cases hc : tm.current_question with
    | none => rw [next_question_of_none tm hc] at hs; exact absurd hs (by simp)
    | some q =>
      rw [next_question_of_some tm q hc] at hs ⊢
      simp only [Option.some.injEq] at hs
      subst hs
      rw [if_neg hse]
  · cases hc : tm.current_question with
    | none => rw [next_question_of_none tm hc] at hs; exact absurd hs (by simp)
    | some q =>
      rw [next_question_of_some tm q hc] at hs ⊢
      simp only [Option.some.injEq] at hs
      subst hs
      rw [if_pos hse]
  · cases hc : tm.current_question with
    | none => rw [next_question_of_none tm hc]
    | some q =>
      rw [next_question_of_some tm q hc]
      by_cases hse : q = ""
      · rw [if_pos hse]
      · rw [if_neg hse]; exact Nat.le_succ _
  · cases hc : tm.current_question with
    | none => rw [next_question_of_none tm hc]; exact hle
    | some q =>
      have hlt := current_question_isSome_lt tm q hc
      rw [next_question_of_some tm q hc]
      by_cases hse : q = ""
      · rw [if_pos hse]; exact hle
      · rw [if_neg hse]; exact hlt

/-- Witness for C10: at the start of the fallback question set the first
technical question is returned and the cursor advances from 0 to 1. -/
theorem c10_witness :
    TestManager.next_question c10wit_tm =
      (some "Explain what OOP is.",
       { c10wit_tm with question_index := 1 }) := by
  have h := c10_next_question_amended c10wit_tm
  have h1 : c10wit_tm.next_question.1 = some "Explain what OOP is." := by
    rw [h.1 (by decide)]
    decide
  have h2 := h.2.2.2.1 "Explain what OOP is." h1 (by decide)
  rw [Prod.ext_iff]
  refine ⟨h1, ?_⟩
  rw [h2]
  decide

end Chatbot
